import Mathlib

/-!
Verification of the treasure-engine game core.

The development shallowly embeds the Rust sources:
  * `src/game.rs` — the pure world/action engine (`GameState`, `PlayerState`,
    `GameAction`, `new_game`, `apply_action` and its handlers, `describe_tile`);
  * `src/main.rs` — the session registry (`game_start`, `game_get_state`,
    `game_apply_action`) over an in-memory map from game ids to states.

Machine integers (`i32`) are modelled as `Int` (no arithmetic here comes close
to overflow), `Vec<String>` as `List String`, and the single randomness point
(`fastrand::u8(0..=100)` inside `handle_attack`) as an explicit `roll : Nat`
parameter threaded through `apply_action`; the distribution is uniform over
`Finset.range 101`, i.e. the 101 integers 0..=100. The external `Uuid` source
of `new_game` is modelled as an explicit `game_id` argument.
-/

/-- Player position and stats (`PlayerState` in `src/game.rs`). -/
structure PlayerState where
  x : Int
  y : Int
  health : Int
  inventory : List String
deriving Repr, DecidableEq

/-- Core game state (`GameState` in `src/game.rs`). -/
structure GameState where
  game_id : String
  player : PlayerState
  log : List String
  game_over : Bool
  victory : Bool
deriving Repr, DecidableEq

/-- Movement directions (`Direction` in `src/game.rs`). -/
inductive Direction where
  | north
  | south
  | east
  | west
deriving Repr, DecidableEq

/-- Actions requested by the gateway (`GameAction` in `src/game.rs`). -/
inductive GameAction where
  | move (direction : Direction)
  | inspect
  | pickup
  | useItem (item : String)
  | attack
deriving Repr, DecidableEq

/-- Tile description lookup (`describe_tile` in `src/game.rs`). -/
def describe_tile (x y : Int) : String :=
  if x = 0 ∧ y = 0 then "a quiet village square with a well in the center."
  else if x = 1 ∧ y = 0 then
    "a dense forest. You hear distant howls and see something glinting on the ground."
  else if x = 2 ∧ y = 0 then "the entrance to a dark cave. Cold air flows from within."
  else if x = 2 ∧ y = 1 then
    "a deep cave chamber. You feel an ominous presence and see a locked chest."
  else if x = 0 ∧ y = 1 then "a small riverbank. The water is clear and cold."
  else if x = 1 ∧ y = 1 then "a rocky path leading between the forest and the cave."
  else "featureless terrain."

/-- The fixed introductory log line of `new_game`. -/
def introLine : String :=
  "You wake up in a small village at (0,0). To the east lies a dark forest."

/-- Notice appended by `apply_action` when the game is already over. -/
def gameOverNotice : String :=
  "The game is already over. Start a new one to continue playing."

/-- Rejection line of `handle_move` for an out-of-bounds target. -/
def moveRejectLine : String :=
  "You can\x27t go that way. The world seems to end there."

/-- Line of `handle_pickup` for a tile with nothing to pick up. -/
def nothingInterestingLine : String :=
  "You search around but don\x27t find anything interesting."

/-- `handle_pickup` discovery line at (1,0). -/
def potionFoundLine : String :=
  "You find a small potion on the ground and pick it up."

/-- `handle_pickup` repeat line at (1,0). -/
def potionAlreadyLine : String :=
  "You already picked up the potion here."

/-- `handle_pickup` discovery line at (2,0). -/
def keyFoundLine : String :=
  "You notice a rusty key wedged between rocks and carefully take it."

/-- `handle_pickup` repeat line at (2,0). -/
def keyAlreadyLine : String :=
  "You already picked up the key here."

/-- `handle_use_item` restoration line for the potion. -/
def potionDrinkLine : String :=
  "You drink the potion. Your health is fully restored."

/-- First line of the `handle_use_item` rusty-key success branch. -/
def chestOpenLine : String :=
  "You use the rusty key to open the ancient chest in the cave."

/-- Second line of the `handle_use_item` rusty-key success branch. -/
def treasureFoundLine : String :=
  "Inside, you find a pile of gold and a glowing gem. You have found the treasure!"

/-- `handle_use_item` line when the rusty key fits nothing at this tile. -/
def keyNoFitLine : String :=
  "You idly play with the rusty key, but it doesn\x27t seem to fit anything here."

/-- `handle_attack` line away from (2,1). -/
def nothingToAttackLine : String :=
  "You swing at the air. There\x27s nothing to attack here."

/-- First line of the `handle_attack` win branch. -/
def attackWinLine1 : String :=
  "You lunge forward and strike the lurking shadow. It vanishes!"

/-- Second line of the `handle_attack` win branch. -/
def attackWinLine2 : String :=
  "With the guardian defeated, you can now safely search for treasure here."

/-- Defeat line of the `handle_attack` damage branch. -/
def defeatLine : String :=
  "You collapse to the ground. The darkness closes in..."

/-- Survival line of the `handle_attack` damage branch. -/
def surviveLine : String :=
  "You barely survive the attack and stagger back."

/-- Damage line of `handle_attack` (the `format!` with the fixed damage 3). -/
def damageLine : String :=
  "A dark creature lashes out from the shadows and hits you for " ++
    toString (3 : Int) ++ " damage!"

/-- `handle_use_item` line for an item absent from the inventory. -/
def dontHaveLine (item : String) : String :=
  "You don\x27t have a " ++ item ++ " to use."

/-- `handle_use_item` line for an unusable item. -/
def cantUseLine (item : String) : String :=
  "You can\x27t figure out how to use the " ++ item ++ "."

/-- `handle_move` success line. -/
def moveLine (x y : Int) : String :=
  "You move to (" ++ toString x ++ "," ++ toString y ++ ") - " ++ describe_tile x y

/-- `handle_inspect` line. -/
def inspectLine (x y : Int) : String :=
  "You inspect your surroundings: " ++ describe_tile x y

/-- Create a brand new game (`new_game` in `src/game.rs`); the fresh UUID is
an explicit argument here. -/
def new_game (gid : String) : GameState :=
  { game_id := gid
    player := { x := 0, y := 0, health := 10, inventory := [] }
    log := [introLine]
    game_over := false
    victory := false }

/-- Movement delta of `handle_move`. -/
def moveDelta : Direction → Int × Int
  | .north => (0, -1)
  | .south => (0, 1)
  | .east => (1, 0)
  | .west => (-1, 0)

/-- `handle_move` from `src/game.rs`; the Rust in-place mutation of the working
copy is modelled by returning the updated state. -/
def handle_move (state : GameState) (direction : Direction) : GameState :=
  let dxy := moveDelta direction
  let new_x := state.player.x + dxy.1
  let new_y := state.player.y + dxy.2
  if new_x < 0 ∨ new_x > 2 ∨ new_y < 0 ∨ new_y > 1 then
    { state with log := state.log ++ [moveRejectLine] }
  else
    { state with
        player := { state.player with x := new_x, y := new_y }
        log := state.log ++ [moveLine new_x new_y] }

/-- `handle_inspect` from `src/game.rs`. -/
def handle_inspect (state : GameState) : GameState :=
  { state with log := state.log ++ [inspectLine state.player.x state.player.y] }

/-- `handle_pickup` from `src/game.rs`. -/
def handle_pickup (state : GameState) : GameState :=
  if state.player.x = 1 ∧ state.player.y = 0 then
    if !(state.player.inventory.contains "potion") then
      { state with
          player := { state.player with inventory := state.player.inventory ++ ["potion"] }
          log := state.log ++ [potionFoundLine] }
    else
      { state with log := state.log ++ [potionAlreadyLine] }
  else if state.player.x = 2 ∧ state.player.y = 0 then
    if !(state.player.inventory.contains "rusty key") then
      { state with
          player := { state.player with inventory := state.player.inventory ++ ["rusty key"] }
          log := state.log ++ [keyFoundLine] }
    else
      { state with log := state.log ++ [keyAlreadyLine] }
  else
    { state with log := state.log ++ [nothingInterestingLine] }

/-- `handle_use_item` from `src/game.rs`. -/
def handle_use_item (state : GameState) (item : String) : GameState :=
  if !(state.player.inventory.contains item) then
    { state with log := state.log ++ [dontHaveLine item] }
  else if item = "potion" then
    { state with
        player := { state.player with
          health := 10
          inventory := state.player.inventory.filter (fun i => i != "potion") }
        log := state.log ++ [potionDrinkLine] }
  else if item = "rusty key" then
    if state.player.x = 2 ∧ state.player.y = 1 then
      { state with
          log := state.log ++ [chestOpenLine, treasureFoundLine]
          game_over := true
          victory := true }
    else
      { state with log := state.log ++ [keyNoFitLine] }
  else
    { state with log := state.log ++ [cantUseLine item] }

/-- `handle_attack` from `src/game.rs`; `roll` is the value drawn by
`fastrand::u8(0..=100)` (uniform over 0..=100). -/
def handle_attack (state : GameState) (roll : Nat) : GameState :=
  if ¬(state.player.x = 2 ∧ state.player.y = 1) then
    { state with log := state.log ++ [nothingToAttackLine] }
  else if roll < 50 then
    { state with log := state.log ++ [attackWinLine1, attackWinLine2] }
  else
    let damage : Int := 3
    let health2 := state.player.health - damage
    if health2 ≤ 0 then
      { state with
          player := { state.player with health := health2 }
          log := state.log ++ [damageLine, defeatLine]
          game_over := true
          victory := false }
    else
      { state with
          player := { state.player with health := health2 }
          log := state.log ++ [damageLine, surviveLine] }

/-- `apply_action` from `src/game.rs`: clones the state, short-circuits when
the game is over, otherwise dispatches to the handler; `roll` feeds the single
randomness point inside `handle_attack`. -/
def apply_action (state : GameState) (action : GameAction) (roll : Nat) : GameState :=
  if state.game_over then
    { state with log := state.log ++ [gameOverNotice] }
  else
    match action with
    | .move direction => handle_move state direction
    | .inspect => handle_inspect state
    | .pickup => handle_pickup state
    | .useItem item => handle_use_item state item
    | .attack => handle_attack state roll

/-- Sequential application of a list of (action, roll) pairs. -/
def foldApply (s : GameState) (steps : List (GameAction × Nat)) : GameState :=
  steps.foldl (fun t p => apply_action t p.1 p.2) s

/-- A state reachable from some fresh game by some action/roll sequence. -/
def Reachable (s : GameState) : Prop :=
  ∃ gid steps, foldApply (new_game gid) steps = s

/-! ### Session registry (`src/main.rs`)

The `HashMap<String, GameState>` guarded by the tokio mutex is modelled as an
association list with first-match lookup and replace-on-insert; each registry
operation of `src/main.rs` is one atomic function on that map (the sequential
model of the per-call critical section). -/

/-- The error value raised by the registry tools (`McpError::invalid_params`
in `src/main.rs`); the only message ever used is the not-found one. -/
inductive McpError where
  | invalidParams (msg : String)
deriving Repr, DecidableEq

/-- The not-found error for a given id, as built at both raise sites of
`src/main.rs`. -/
def notFoundError (game_id : String) : McpError :=
  .invalidParams ("No game found for id " ++ game_id)

/-- The in-memory session map. -/
def Registry := List (String × GameState)

/-- First-match lookup, the observable behaviour of `HashMap::get`. -/
def regLookup : Registry → String → Option GameState
  | [], _ => none
  | (k, v) :: rest, id => if k = id then some v else regLookup rest id

/-- Replace-or-append insert, the observable behaviour of `HashMap::insert`. -/
def regInsert : Registry → String → GameState → Registry
  | [], id, s => [(id, s)]
  | (k, v) :: rest, id, s =>
      if k = id then (id, s) :: rest else (k, v) :: regInsert rest id s

/-- `game_start` from `src/main.rs`: build a new game and store it under its
id; the fresh UUID is an explicit argument. Always succeeds. -/
def game_start (games : Registry) (gid : String) : Registry × GameState :=
  let game := new_game gid
  (regInsert games game.game_id game, game)

/-- `game_get_state` from `src/main.rs`: read-only lookup, `NotFound` on an
unknown id. -/
def game_get_state (games : Registry) (game_id : String) : Except McpError GameState :=
  match regLookup games game_id with
  | some state => .ok state
  | none => .error (notFoundError game_id)

/-- `game_apply_action` from `src/main.rs`: look up the current state, fail
with `NotFound` (leaving the map untouched) on an unknown id, otherwise store
and return `apply_action current action`. -/
def game_apply_action (games : Registry) (game_id : String) (action : GameAction)
    (roll : Nat) : Registry × Except McpError GameState :=
  match regLookup games game_id with
  | none => (games, .error (notFoundError game_id))
  | some current =>
      let updated := apply_action current action roll
      (regInsert games game_id updated, .ok updated)

/-! ### Helper lemmas -/

/-- The grid-bounds invariant of `PlayerState` (spec §3). -/
def inBounds (p : PlayerState) : Prop :=
  0 ≤ p.x ∧ p.x ≤ 2 ∧ 0 ≤ p.y ∧ p.y ≤ 1

instance (p : PlayerState) : Decidable (inBounds p) :=
  inferInstanceAs (Decidable (0 ≤ p.x ∧ p.x ≤ 2 ∧ 0 ≤ p.y ∧ p.y ≤ 1))

theorem handle_pickup_pos (s : GameState) :
    (handle_pickup s).player.x = s.player.x ∧ (handle_pickup s).player.y = s.player.y := by
  unfold handle_pickup
  split_ifs <;> simp

theorem handle_use_item_pos (s : GameState) (item : String) :
    (handle_use_item s item).player.x = s.player.x ∧
      (handle_use_item s item).player.y = s.player.y := by
  unfold handle_use_item
  split_ifs <;> simp

theorem handle_attack_pos (s : GameState) (roll : Nat) :
    (handle_attack s roll).player.x = s.player.x ∧
      (handle_attack s roll).player.y = s.player.y := by
  simp only [handle_attack]
  split_ifs <;> simp

theorem apply_action_inBounds (s : GameState) (a : GameAction) (roll : Nat)
    (hs : inBounds s.player) : inBounds (apply_action s a roll).player := by
  unfold apply_action
  split
  · exact hs
  · cases a with
    | move d =>
        unfold inBounds at *
        cases d <;> simp only [handle_move, moveDelta] <;> split_ifs with h <;>
          simp_all
    | inspect => exact hs
    | pickup =>
        obtain ⟨hx, hy⟩ := handle_pickup_pos s
        unfold inBounds at *
        rw [hx, hy]; exact hs
    | useItem item =>
        obtain ⟨hx, hy⟩ := handle_use_item_pos s item
        unfold inBounds at *
        rw [hx, hy]; exact hs
    | attack =>
        obtain ⟨hx, hy⟩ := handle_attack_pos s roll
        unfold inBounds at *
        rw [hx, hy]; exact hs

/-! ### Claims -/

/-- The non-log components of a state: game id, player, `game_over`,
`victory`. -/
def stateCore (s : GameState) : String × PlayerState × Bool × Bool :=
  (s.game_id, s.player, s.game_over, s.victory)

/-- The log lines an action appends to a state. -/
def appendedLog (s : GameState) (a : GameAction) (r : Nat) : List String :=
  (apply_action s a r).log.drop s.log.length

/-- No handler reads the log: two states agreeing on everything but the log
step to states agreeing on everything but the log, and append the same
lines. -/
theorem apply_action_log_agnostic (s1 s2 : GameState) (a : GameAction) (r : Nat)
    (h : stateCore s1 = stateCore s2) :
    stateCore (apply_action s1 a r) = stateCore (apply_action s2 a r) ∧
    appendedLog s1 a r = appendedLog s2 a r := by
  obtain ⟨gid1, p1, L1, go1, v1⟩ := s1
  obtain ⟨gid2, p2, L2, go2, v2⟩ := s2
  simp only [stateCore, Prod.mk.injEq] at h
  obtain ⟨hg, hp, ho, hv⟩ := h
  subst hg; subst hp; subst ho; subst hv
  unfold appendedLog
  cases go1 with
  | true => simp [apply_action, stateCore]
  | false =>
    cases a with
    | move d =>
        simp only [apply_action, Bool.false_eq_true, if_false, handle_move]
        split_ifs <;> simp [stateCore]
    | inspect => simp [apply_action, handle_inspect, stateCore]
    | pickup =>
        simp only [apply_action, Bool.false_eq_true, if_false, handle_pickup]
        split_ifs <;> simp [stateCore]
    | useItem item =>
        simp only [apply_action, Bool.false_eq_true, if_false, handle_use_item]
        split_ifs <;> simp [stateCore]
    | attack =>
        simp only [apply_action, Bool.false_eq_true, if_false, handle_attack]
        split_ifs <;> simp [stateCore]

/-- Concrete healthy state at (2,1), used for claim C3. -/
def cexState : GameState :=
  { game_id := "c3"
    player := { x := 2, y := 1, health := 10, inventory := [] }
    log := [introLine]
    game_over := false
    victory := false }

/-- Claim C3, counterexample to the 50% figure: over the 101 equally likely
values of `fastrand::u8(0..=100)`, exactly 50 (the rolls < 50, those leaving
health unchanged at (2,1)) take the win branch, and 2·50 ≠ 101, so the win
probability is 50/101 ≈ 49.5%, not 50%. -/
theorem attack_win_prob_counterexample :
    ((Finset.range 101).filter (fun r =>
        (apply_action cexState .attack r).player.health = cexState.player.health)).card = 50
    ∧ 2 * ((Finset.range 101).filter (fun r =>
        (apply_action cexState .attack r).player.health = cexState.player.health)).card ≠
      (Finset.range 101).card := by
  constructor
  · decide
  · decide

/-- Claim C3 (amended): at (2,1) on a non-game-over state, `Attack` takes the
win branch exactly when the drawn value is < 50 — 50 of the 101 equally likely
values of the uniform draw over [0,100], a 50/101 (≈49.5%) win probability
rather than exactly 50% — the win branch appends exactly the two narrative
lines and changes no other field, so any subsequent action behaves identically
(same non-log state, same appended lines) to before the win roll. -/
theorem attack_win_branch (s : GameState) (roll : Nat)
    (hgo : s.game_over = false) (hx : s.player.x = 2) (hy : s.player.y = 1)
    (hroll : roll < 50) :
    apply_action s .attack roll =
      { s with log := s.log ++ [attackWinLine1, attackWinLine2] } ∧
    ((Finset.range 101).filter (fun r =>
        apply_action s .attack r =
          { s with log := s.log ++ [attackWinLine1, attackWinLine2] })).card = 50 ∧
    (Finset.range 101).card = 101 ∧
    (∀ (a : GameAction) (r : Nat),
      stateCore (apply_action (apply_action s .attack roll) a r) =
        stateCore (apply_action s a r) ∧
      appendedLog (apply_action s .attack roll) a r = appendedLog s a r) := by
  have h1 : apply_action s .attack roll =
      { s with log := s.log ++ [attackWinLine1, attackWinLine2] } := by
    simp [apply_action, hgo, handle_attack, hx, hy, hroll]
  have hchar : ∀ r : Nat,
      (apply_action s .attack r =
        { s with log := s.log ++ [attackWinLine1, attackWinLine2] }) ↔ r < 50 := by
    intro r
    constructor
    · intro heq
      by_contra hge
      have hh := congrArg (fun t => t.player.health) heq
      simp only [apply_action, hgo, Bool.false_eq_true, if_false, handle_attack] at hh
      rw [if_neg (by simp [hx, hy]), if_neg hge] at hh
      split_ifs at hh <;> simp at hh
    · intro hr
      simp [apply_action, hgo, handle_attack, hx, hy, hr]
  refine ⟨h1, ?_, by simp, ?_⟩
  · have hset : (Finset.range 101).filter (fun r =>
        apply_action s .attack r =
          { s with log := s.log ++ [attackWinLine1, attackWinLine2] }) =
        (Finset.range 101).filter (fun r => r < 50) := by
      apply Finset.filter_congr
      intro r _
      exact hchar r
    rw [hset]
    decide
  · intro a r
    rw [h1]
    exact apply_action_log_agnostic _ s a r rfl

/-- Witness for claim C3 at a concrete state and the roll 7. -/
theorem attack_win_branch_witness :
    cexState.game_over = false ∧ cexState.player.x = 2 ∧ cexState.player.y = 1 ∧
      7 < 50 ∧
      apply_action cexState .attack 7 =
        { cexState with log := cexState.log ++ [attackWinLine1, attackWinLine2] } :=
  ⟨rfl, rfl, rfl, by decide, (attack_win_branch cexState 7 rfl rfl rfl (by decide)).1⟩

/-- Claim C4: terminal states are inert — for every state with `game_over = true`
and every action (and any roll), `apply_action` returns the input state with
exactly the one fixed notice line appended; player, game id, `game_over` and
`victory` are unchanged, so `game_over` never reverts to `false`. -/
theorem terminal_states_inert (s : GameState) (a : GameAction) (roll : Nat)
    (hgo : s.game_over = true) :
    apply_action s a roll = { s with log := s.log ++ [gameOverNotice] } := by
  simp [apply_action, hgo]

/-- Concrete terminal state used to witness claim C4. -/
def deadState : GameState :=
  { new_game "w4" with game_over := true }

/-- Witness for claim C4 at a concrete terminal state and action. -/
theorem terminal_states_inert_witness :
    deadState.game_over = true ∧
      apply_action deadState .attack 7 =
        { deadState with log := deadState.log ++ [gameOverNotice] } :=
  ⟨by decide, terminal_states_inert deadState .attack 7 (by decide)⟩

/-- Claim C5: the grid-bounds invariant `0 ≤ x ≤ 2 ∧ 0 ≤ y ≤ 1` holds for
`new_game` and is preserved by every `apply_action`; moreover a `Move` whose
target coordinate is out of bounds leaves the position (and every other field)
unchanged and appends exactly the one rejection line. -/
theorem grid_bounds_invariant (gid : String) (s : GameState) (a : GameAction)
    (roll : Nat) (d : Direction) (hs : inBounds s.player) :
    inBounds (new_game gid).player ∧
    inBounds (apply_action s a roll).player ∧
    (s.game_over = false →
      (s.player.x + (moveDelta d).1 < 0 ∨ s.player.x + (moveDelta d).1 > 2 ∨
        s.player.y + (moveDelta d).2 < 0 ∨ s.player.y + (moveDelta d).2 > 1) →
      apply_action s (.move d) roll = { s with log := s.log ++ [moveRejectLine] }) := by
  refine ⟨by constructor <;> simp [new_game], apply_action_inBounds s a roll hs, ?_⟩
  intro hgo hout
  simp only [apply_action, hgo, Bool.false_eq_true, if_false]
  simp only [handle_move]
  rw [if_pos hout]
  simp [hgo]

/-- Witness for claim C5: a fresh game is in bounds, and moving west from
(0,0) is rejected. -/
theorem grid_bounds_invariant_witness :
    inBounds (new_game "g").player ∧
      (inBounds (new_game "w5").player ∧
        inBounds (apply_action (new_game "g") (.move .west) 0).player ∧
        ((new_game "g").game_over = false →
          ((new_game "g").player.x + (moveDelta .west).1 < 0 ∨
            (new_game "g").player.x + (moveDelta .west).1 > 2 ∨
            (new_game "g").player.y + (moveDelta .west).2 < 0 ∨
            (new_game "g").player.y + (moveDelta .west).2 > 1) →
          apply_action (new_game "g") (.move .west) 0 =
            { new_game "g" with log := (new_game "g").log ++ [moveRejectLine] })) :=
  ⟨by decide, grid_bounds_invariant "w5" (new_game "g") (.move .west) 0 .west (by decide)⟩

/-- Claim C6: on a non-game-over state, `UseItem("potion")` with the potion in
the inventory sets health to exactly 10 and removes the potion, appending one
restoration line; `UseItem(item)` with `item` absent appends one
"don\x27t have" line and changes nothing else. -/
theorem potion_full_heal (s : GameState) (roll : Nat) (item : String)
    (hgo : s.game_over = false) :
    (s.player.inventory.contains "potion" = true →
      apply_action s (.useItem "potion") roll =
        { s with
            player := { s.player with
              health := 10
              inventory := s.player.inventory.filter (fun i => i != "potion") }
            log := s.log ++ [potionDrinkLine] } ∧
      "potion" ∉ (apply_action s (.useItem "potion") roll).player.inventory) ∧
    (s.player.inventory.contains item = false →
      apply_action s (.useItem item) roll =
        { s with log := s.log ++ [dontHaveLine item] }) := by
  constructor
  · intro hpot
    simp at hpot
    have heq : apply_action s (.useItem "potion") roll =
        { s with
            player := { s.player with
              health := 10
              inventory := s.player.inventory.filter (fun i => i != "potion") }
            log := s.log ++ [potionDrinkLine] } := by
      simp [apply_action, hgo, handle_use_item, hpot]
    refine ⟨heq, ?_⟩
    rw [heq]
    simp
  · intro hno
    simp at hno
    simp [apply_action, hgo, handle_use_item, hno]

/-- Claim C1: using the rusty key at (2,1) appends exactly the two treasure
lines, sets `game_over` and `victory` and keeps the key in the inventory (the
player record is unchanged); and it is the sole winning condition — whenever an
action turns `victory` from false to true it was `UseItem("rusty key")` on a
non-game-over state at (2,1). -/
theorem rusty_key_sole_win (s : GameState) (roll : Nat)
    (hgo : s.game_over = false)
    (hkey : s.player.inventory.contains "rusty key" = true)
    (hx : s.player.x = 2) (hy : s.player.y = 1) :
    apply_action s (.useItem "rusty key") roll =
      { s with
          log := s.log ++ [chestOpenLine, treasureFoundLine]
          game_over := true
          victory := true } ∧
    ∀ (t : GameState) (a : GameAction) (r : Nat),
      t.victory = false → (apply_action t a r).victory = true →
      a = .useItem "rusty key" ∧ t.player.x = 2 ∧ t.player.y = 1 ∧ t.game_over = false := by
  constructor
  · simp at hkey
    simp [apply_action, hgo, handle_use_item, hkey, hx, hy]
  · intro t a r hv hv'
    cases hgo2 : t.game_over with
    | true => simp [apply_action, hgo2, hv] at hv'
    | false =>
      cases a with
      | move d =>
          simp only [apply_action, hgo2, Bool.false_eq_true, if_false, handle_move] at hv'
          split_ifs at hv' <;> simp_all
      | inspect =>
          simp [apply_action, hgo2, handle_inspect, hv] at hv'
      | pickup =>
          simp only [apply_action, hgo2, Bool.false_eq_true, if_false] at hv'
          unfold handle_pickup at hv'
          split_ifs at hv' <;> simp_all
      | useItem item =>
          simp only [apply_action, hgo2, Bool.false_eq_true, if_false] at hv'
          unfold handle_use_item at hv'
          split_ifs at hv' <;> simp_all
      | attack =>
          simp only [apply_action, hgo2, Bool.false_eq_true, if_false] at hv'
          simp only [handle_attack] at hv'
          split_ifs at hv' <;> simp_all

/-- Concrete state at (2,1) holding the rusty key, used to witness claim C1. -/
def keyState : GameState :=
  { game_id := "w1"
    player := { x := 2, y := 1, health := 10, inventory := ["rusty key"] }
    log := [introLine]
    game_over := false
    victory := false }

/-- Witness for claim C1: the winning transition fires at a concrete state. -/
theorem rusty_key_sole_win_witness :
    keyState.game_over = false ∧
      keyState.player.inventory.contains "rusty key" = true ∧
      keyState.player.x = 2 ∧ keyState.player.y = 1 ∧
      apply_action keyState (.useItem "rusty key") 3 =
        { keyState with
            log := keyState.log ++ [chestOpenLine, treasureFoundLine]
            game_over := true
            victory := true } :=
  ⟨rfl, by decide, rfl, rfl,
    (rusty_key_sole_win keyState 3 rfl (by decide) rfl rfl).1⟩

/-- Claim C2: at (2,1) on a non-game-over state, an `Attack` rolling ≥ 50
subtracts exactly 3 from health; if that leaves health ≤ 0 it ends the game
with `victory = false` (and this is the sole losing transition), otherwise only
the damage and survive lines are appended; away from (2,1), `handle_attack`
appends the single "nothing to attack" line and changes no other field. -/
theorem attack_damage (s : GameState) (roll : Nat)
    (hgo : s.game_over = false) (hx : s.player.x = 2) (hy : s.player.y = 1)
    (hroll : 50 ≤ roll) :
    (s.player.health - 3 ≤ 0 →
      apply_action s .attack roll =
        { s with
            player := { s.player with health := s.player.health - 3 }
            log := s.log ++ [damageLine, defeatLine]
            game_over := true
            victory := false }) ∧
    (0 < s.player.health - 3 →
      apply_action s .attack roll =
        { s with
            player := { s.player with health := s.player.health - 3 }
            log := s.log ++ [damageLine, surviveLine] }) ∧
    (∀ (t : GameState) (r : Nat), ¬(t.player.x = 2 ∧ t.player.y = 1) →
      handle_attack t r = { t with log := t.log ++ [nothingToAttackLine] }) ∧
    (∀ (t : GameState) (a : GameAction) (r : Nat),
      t.game_over = false → (apply_action t a r).game_over = true →
      (apply_action t a r).victory = false →
      a = .attack ∧ t.player.x = 2 ∧ t.player.y = 1 ∧ 50 ≤ r ∧ t.player.health ≤ 3) := by
  have hnw : ¬ (roll < 50) := by omega
  refine ⟨?_, ?_, ?_, ?_⟩
  · intro hdead
    simp [apply_action, hgo, handle_attack, hx, hy, hnw, hdead]
  · intro halive
    have hnd : ¬ (s.player.health - 3 ≤ 0) := by omega
    simp [apply_action, hgo, handle_attack, hx, hy, hnw, hnd]
  · intro t r hnot
    simp [handle_attack, hnot]
  · intro t a r hgo2 hover hvic
    cases a with
    | move d =>
        simp only [apply_action, hgo2, Bool.false_eq_true, if_false, handle_move] at hover
        split_ifs at hover
    | inspect =>
        simp [apply_action, handle_inspect, hgo2] at hover
    | pickup =>
        simp only [apply_action, hgo2, Bool.false_eq_true, if_false] at hover
        unfold handle_pickup at hover
        split_ifs at hover <;> simp_all
    | useItem item =>
        simp only [apply_action, hgo2, Bool.false_eq_true, if_false] at hover hvic
        unfold handle_use_item at hover hvic
        split_ifs at hover hvic <;> simp_all
    | attack =>
        simp only [apply_action, hgo2, Bool.false_eq_true, if_false] at hover hvic
        simp only [handle_attack] at hover hvic
        split_ifs at hover hvic with h1 h2 h3 <;> simp_all

/-- Concrete nearly-dead state at (2,1), used to witness claim C2. -/
def dyingState : GameState :=
  { game_id := "w2"
    player := { x := 2, y := 1, health := 2, inventory := [] }
    log := [introLine]
    game_over := false
    victory := false }

/-- Witness for claim C2: a roll of 77 on health 2 at (2,1) is the terminal
loss. -/
theorem attack_damage_witness :
    dyingState.game_over = false ∧ dyingState.player.x = 2 ∧
      dyingState.player.y = 1 ∧ 50 ≤ 77 ∧ dyingState.player.health - 3 ≤ 0 ∧
      apply_action dyingState .attack 77 =
        { dyingState with
            player := { dyingState.player with health := dyingState.player.health - 3 }
            log := dyingState.log ++ [damageLine, defeatLine]
            game_over := true
            victory := false } :=
  ⟨rfl, rfl, rfl, by decide, by decide,
    (attack_damage dyingState 77 rfl rfl rfl (by decide)).1 (by decide)⟩

/-- Concrete wounded state with a potion, used to witness claim C6. -/
def woundedState : GameState :=
  { game_id := "w6"
    player := { x := 0, y := 0, health := 4, inventory := ["potion"] }
    log := [introLine]
    game_over := false
    victory := false }

theorem regLookup_regInsert_self (g : Registry) (id : String) (s : GameState) :
    regLookup (regInsert g id s) id = some s := by
  induction g with
  | nil => simp [regInsert, regLookup]
  | cons p rest ih =>
      obtain ⟨k, v⟩ := p
      by_cases h : k = id
      · simp [regInsert, regLookup, h]
      · simp [regInsert, regLookup, h, ih]

/-- Claim C7: `game_get_state`/`game_apply_action` on an unknown id fail with
the not-found error and leave the session map unchanged (no implicit session);
that error is the only error either can return; `game_start` always succeeds
and stores the new state under its `game_id`. -/
theorem registry_not_found (games : Registry) (id gid : String) (a : GameAction)
    (roll : Nat) (hnone : regLookup games id = none) :
    game_get_state games id = .error (notFoundError id) ∧
    game_apply_action games id a roll = (games, .error (notFoundError id)) ∧
    (∀ (g2 : Registry) (id2 : String) (e : McpError),
      game_get_state g2 id2 = .error e → e = notFoundError id2) ∧
    (∀ (g2 : Registry) (id2 : String) (a2 : GameAction) (r2 : Nat) (e : McpError),
      (game_apply_action g2 id2 a2 r2).2 = .error e → e = notFoundError id2) ∧
    (game_start games gid).2 = new_game gid ∧
    regLookup (game_start games gid).1 gid = some (new_game gid) := by
  refine ⟨?_, ?_, ?_, ?_, rfl, ?_⟩
  · simp [game_get_state, hnone]
  · simp [game_apply_action, hnone]
  · intro g2 id2 e h
    unfold game_get_state at h
    cases hl : regLookup g2 id2 <;> rw [hl] at h <;> simp_all
  · intro g2 id2 a2 r2 e h
    unfold game_apply_action at h
    cases hl : regLookup g2 id2 <;> rw [hl] at h <;> simp_all
  · exact regLookup_regInsert_self games gid (new_game gid)

/-- Witness for claim C7 on the empty registry and a fresh session. -/
theorem registry_not_found_witness :
    regLookup ([] : Registry) "missing" = none ∧
    game_get_state ([] : Registry) "missing" = .error (notFoundError "missing") ∧
    game_apply_action ([] : Registry) "missing" .pickup 0 =
      (([] : Registry), .error (notFoundError "missing")) ∧
    regLookup (game_start ([] : Registry) "g0").1 "g0" = some (new_game "g0") :=
  ⟨rfl, (registry_not_found [] "missing" "g0" .pickup 0 rfl).1,
    (registry_not_found [] "missing" "g0" .pickup 0 rfl).2.1,
    (registry_not_found [] "missing" "g0" .pickup 0 rfl).2.2.2.2.2⟩

theorem apply_action_nodup (s : GameState) (a : GameAction) (r : Nat)
    (h : s.player.inventory.Nodup) : (apply_action s a r).player.inventory.Nodup := by
  cases hgo : s.game_over with
  | true => simpa [apply_action, hgo] using h
  | false =>
    cases a with
    | move d =>
        simp only [apply_action, hgo, Bool.false_eq_true, if_false, handle_move]
        split_ifs <;> simpa using h
    | inspect => simpa [apply_action, hgo, handle_inspect] using h
    | pickup =>
        simp only [apply_action, hgo, Bool.false_eq_true, if_false, handle_pickup]
        split_ifs <;> simp_all [List.nodup_append]
    | useItem item =>
        simp only [apply_action, hgo, Bool.false_eq_true, if_false, handle_use_item]
        split_ifs <;> first | simpa using h | simpa using h.filter _
    | attack =>
        simp only [apply_action, hgo, Bool.false_eq_true, if_false, handle_attack]
        split_ifs <;> simpa using h

theorem foldApply_nodup (steps : List (GameAction × Nat)) (s : GameState)
    (h : s.player.inventory.Nodup) : (foldApply s steps).player.inventory.Nodup := by
  induction steps generalizing s with
  | nil => exact h
  | cons p rest ih => exact ih _ (apply_action_nodup s p.1 p.2 h)

theorem reachable_nodup (s : GameState) (h : Reachable s) :
    s.player.inventory.Nodup := by
  obtain ⟨gid, steps, rfl⟩ := h
  exact foldApply_nodup steps (new_game gid) (by simp [new_game])

/-- Claim C8: the inventory of every reachable state is duplicate-free;
picking up twice at (1,0) (resp. (2,0)) leaves "potion" (resp. "rusty key") in
the inventory exactly once, the second pickup appending only the
"already picked up" line; and a pickup on any other tile appends the single
"nothing interesting" line and changes no other field. -/
theorem pickup_idempotent (s : GameState) (r1 r2 : Nat) (hreach : Reachable s) :
    s.player.inventory.Nodup ∧
    (s.game_over = false → s.player.x = 1 → s.player.y = 0 →
      s.player.inventory.contains "potion" = false →
      (apply_action s .pickup r1).player.inventory.count "potion" = 1 ∧
      apply_action (apply_action s .pickup r1) .pickup r2 =
        { apply_action s .pickup r1 with
            log := (apply_action s .pickup r1).log ++ [potionAlreadyLine] } ∧
      (apply_action (apply_action s .pickup r1) .pickup r2).player.inventory.count
        "potion" = 1) ∧
    (s.game_over = false → s.player.x = 2 → s.player.y = 0 →
      s.player.inventory.contains "rusty key" = false →
      (apply_action s .pickup r1).player.inventory.count "rusty key" = 1 ∧
      apply_action (apply_action s .pickup r1) .pickup r2 =
        { apply_action s .pickup r1 with
            log := (apply_action s .pickup r1).log ++ [keyAlreadyLine] } ∧
      (apply_action (apply_action s .pickup r1) .pickup r2).player.inventory.count
        "rusty key" = 1) ∧
    (s.game_over = false → ¬(s.player.x = 1 ∧ s.player.y = 0) →
      ¬(s.player.x = 2 ∧ s.player.y = 0) →
      apply_action s .pickup r1 = { s with log := s.log ++ [nothingInterestingLine] }) := by
  refine ⟨reachable_nodup s hreach, ?_, ?_, ?_⟩
  · intro hgo hx hy hno
    simp at hno
    have h1 : apply_action s .pickup r1 =
        { s with
            player := { s.player with inventory := s.player.inventory ++ ["potion"] }
            log := s.log ++ [potionFoundLine] } := by
      simp [apply_action, hgo, handle_pickup, hx, hy, hno]
    have h2 : apply_action (apply_action s .pickup r1) .pickup r2 =
        { apply_action s .pickup r1 with
            log := (apply_action s .pickup r1).log ++ [potionAlreadyLine] } := by
      rw [h1]
      simp [apply_action, hgo, handle_pickup, hx, hy]
    refine ⟨?_, h2, ?_⟩
    · rw [h1]
      simp [List.count_append, List.count_eq_zero, hno]
    · rw [h2, h1]
      simp [List.count_append, List.count_eq_zero, hno]
  · intro hgo hx hy hno
    simp at hno
    have h1 : apply_action s .pickup r1 =
        { s with
            player := { s.player with inventory := s.player.inventory ++ ["rusty key"] }
            log := s.log ++ [keyFoundLine] } := by
      simp [apply_action, hgo, handle_pickup, hx, hy, hno]
    have h2 : apply_action (apply_action s .pickup r1) .pickup r2 =
        { apply_action s .pickup r1 with
            log := (apply_action s .pickup r1).log ++ [keyAlreadyLine] } := by
      rw [h1]
      simp [apply_action, hgo, handle_pickup, hx, hy]
    refine ⟨?_, h2, ?_⟩
    · rw [h1]
      simp [List.count_append, List.count_eq_zero, hno]
    · rw [h2, h1]
      simp [List.count_append, List.count_eq_zero, hno]
  · intro hgo hn1 hn2
    simp [apply_action, hgo, handle_pickup, hn1, hn2]

/-- Concrete reachable state in the forest at (1,0), used to witness claim C8. -/
def pickupState : GameState := foldApply (new_game "w8") [(.move .east, 0)]

/-- Witness for claim C8 at a reachable state standing on the potion tile. -/
theorem pickup_idempotent_witness :
    Reachable pickupState ∧
    pickupState.player.inventory.Nodup ∧
    (apply_action pickupState .pickup 0).player.inventory.count "potion" = 1 ∧
    (apply_action (apply_action pickupState .pickup 0) .pickup 1).player.inventory.count
      "potion" = 1 :=
  ⟨⟨"w8", [(.move .east, 0)], rfl⟩,
    (pickup_idempotent pickupState 0 1 ⟨"w8", [(.move .east, 0)], rfl⟩).1,
    ((pickup_idempotent pickupState 0 1 ⟨"w8", [(.move .east, 0)], rfl⟩).2.1
      (by decide) (by decide) (by decide) (by decide)).1,
    ((pickup_idempotent pickupState 0 1 ⟨"w8", [(.move .east, 0)], rfl⟩).2.1
      (by decide) (by decide) (by decide) (by decide)).2.2⟩

/-- Witness for claim C6 at a concrete state holding a potion. -/
theorem potion_full_heal_witness :
    woundedState.game_over = false ∧
      ((woundedState.player.inventory.contains "potion" = true →
        apply_action woundedState (.useItem "potion") 0 =
          { woundedState with
              player := { woundedState.player with
                health := 10
                inventory := woundedState.player.inventory.filter (fun i => i != "potion") }
              log := woundedState.log ++ [potionDrinkLine] } ∧
        "potion" ∉ (apply_action woundedState (.useItem "potion") 0).player.inventory) ∧
      (woundedState.player.inventory.contains "torch" = false →
        apply_action woundedState (.useItem "torch") 0 =
          { woundedState with log := woundedState.log ++ [dontHaveLine "torch"] })) :=
  ⟨by decide, potion_full_heal woundedState 0 "torch" (by decide)⟩

/-- A sequence of `game_apply_action` tool calls against one stored session. -/
def applySeq (games : Registry) (id : String) (steps : List (GameAction × Nat)) :
    Registry :=
  steps.foldl (fun g p => (game_apply_action g id p.1 p.2).1) games

/-- Claim C9, counterexample to the log-entry count: a session taken through 4
actions (east, east, south, attack with a winning roll) stores a log of 6
entries, not 4 + 1 = 5, because the attack handler appends two lines. -/
theorem log_entries_counterexample :
    (regLookup (applySeq (game_start [] "g9").1 "g9"
        [(.move .east, 0), (.move .east, 0), (.move .south, 0), (.attack, 0)]) "g9").map
      (fun st => st.log.length) = some 6 ∧ (6 : Nat) ≠ 4 + 1 :=
  ⟨by decide, by decide⟩

/-- One engine step appends at least one and at most two log lines. -/
theorem apply_action_log_growth (s : GameState) (a : GameAction) (r : Nat) :
    s.log.length + 1 ≤ (apply_action s a r).log.length ∧
      (apply_action s a r).log.length ≤ s.log.length + 2 := by
  cases hgo : s.game_over with
  | true => simp [apply_action, hgo]
  | false =>
    cases a with
    | move d =>
        simp only [apply_action, hgo, Bool.false_eq_true, if_false, handle_move]
        split_ifs <;> simp
    | inspect => simp [apply_action, hgo, handle_inspect]
    | pickup =>
        simp only [apply_action, hgo, Bool.false_eq_true, if_false, handle_pickup]
        split_ifs <;> simp
    | useItem item =>
        simp only [apply_action, hgo, Bool.false_eq_true, if_false, handle_use_item]
        split_ifs <;> simp
    | attack =>
        simp only [apply_action, hgo, Bool.false_eq_true, if_false, handle_attack]
        split_ifs <;> simp

/-- Claim C9 (amended): in the sequential model of the per-session
read-modify-write, each applied action appends at least one and at most two
log lines, so after N applications to a fresh game the log holds between N+1
and 2N+1 entries (the seed line plus one or two per action) — not exactly
N+1. -/
theorem log_growth_bounds (gid : String) (steps : List (GameAction × Nat)) :
    steps.length + 1 ≤ (foldApply (new_game gid) steps).log.length ∧
      (foldApply (new_game gid) steps).log.length ≤ 2 * steps.length + 1 := by
  have aux : ∀ (st : List (GameAction × Nat)) (s : GameState),
      s.log.length + st.length ≤ (foldApply s st).log.length ∧
        (foldApply s st).log.length ≤ s.log.length + 2 * st.length := by
    intro st
    induction st with
    | nil => intro s; simp [foldApply]
    | cons p rest ih =>
        intro s
        have h1 := apply_action_log_growth s p.1 p.2
        have h2 := ih (apply_action s p.1 p.2)
        simp only [foldApply, List.foldl_cons, List.length_cons] at h2 ⊢
        omega
  have hb := aux steps (new_game gid)
  have hlen : (new_game gid).log.length = 1 := rfl
  omega

/-- Claim C10: health is not clamped at zero — from a fresh game, moving to
(2,1) and taking three damaging rolls leaves a reachable state with health 1;
one more Attack rolling ≥ 50 returns a terminal losing state whose health is
the strictly negative value -2, observable in the returned `GameState`. -/
theorem health_goes_negative :
    (foldApply (new_game "gX")
        [(.move .east, 0), (.move .east, 0), (.move .south, 0),
          (.attack, 60), (.attack, 60), (.attack, 60)]).player.health = 1 ∧
    (foldApply (new_game "gX")
        [(.move .east, 0), (.move .east, 0), (.move .south, 0),
          (.attack, 60), (.attack, 60), (.attack, 60)]).game_over = false ∧
    Reachable (foldApply (new_game "gX")
        [(.move .east, 0), (.move .east, 0), (.move .south, 0),
          (.attack, 60), (.attack, 60), (.attack, 60)]) ∧
    (apply_action (foldApply (new_game "gX")
        [(.move .east, 0), (.move .east, 0), (.move .south, 0),
          (.attack, 60), (.attack, 60), (.attack, 60)]) .attack 60).player.health = -2 ∧
    (apply_action (foldApply (new_game "gX")
        [(.move .east, 0), (.move .east, 0), (.move .south, 0),
          (.attack, 60), (.attack, 60), (.attack, 60)]) .attack 60).player.health < 0 ∧
    (apply_action (foldApply (new_game "gX")
        [(.move .east, 0), (.move .east, 0), (.move .south, 0),
          (.attack, 60), (.attack, 60), (.attack, 60)]) .attack 60).game_over = true ∧
    (apply_action (foldApply (new_game "gX")
        [(.move .east, 0), (.move .east, 0), (.move .south, 0),
          (.attack, 60), (.attack, 60), (.attack, 60)]) .attack 60).victory = false :=
  ⟨by decide, by decide,
    ⟨"gX", [(.move .east, 0), (.move .east, 0), (.move .south, 0),
      (.attack, 60), (.attack, 60), (.attack, 60)], rfl⟩,
    by decide, by decide, by decide, by decide⟩
